import Mathlib

/-!
Verification of the FlashLearnEMS anti-abuse core: device fingerprinting
(`device-fingerprint`), license management (`license.ts`), and the rate
limiter / bot detector.  Each subsystem is shallowly embedded as pure Lean
functions over explicit state; timestamps are milliseconds as natural
numbers, JavaScript numbers that feed arithmetic are rationals.
-/

namespace FlashLearnEMS

/-! ## Fingerprint engine (`device-fingerprint`) -/

/-- A JavaScript value that can appear in a fingerprint component map:
`string | number | boolean | undefined`. -/
inductive FPValue where
  | str (s : String)
  | num (q : ℚ)
  | bool (b : Bool)
  | undef
deriving DecidableEq, Repr

/-- A JavaScript object of fingerprint components, as its ordered list of
`Object.entries` pairs. -/
abbrev Components := List (String × FPValue)

/-- Property lookup `o[k]`: the value of the first entry named `k`,
`undefined`-as-`none` when absent. -/
def lookupFP (o : Components) (k : String) : Option FPValue :=
  (o.find? (fun e => e.1 == k)).map (fun e => e.2)

/-- Source `calculateSimilarity(a, b)`: the fraction of keys of `a` on which
`a[key] === b[key]`. -/
def calculateSimilarity (a b : Components) : ℚ :=
  let keys := a.map (fun e => e.1)
  let matchCount := keys.countP (fun k => lookupFP a k == lookupFP b k)
  (matchCount : ℚ) / (keys.length : ℚ)

/-- The `DeviceFingerprint` record persisted under `chapterflash_device`. -/
structure DeviceFingerprint where
  id : String
  components : Components
  timestamp : Nat
deriving DecidableEq, Repr

/-- The ambient browser environment read by `getDeviceFingerprint`,
after the per-attribute defensive fallbacks have been applied
(e.g. `hardwareConcurrency || 0`, canvas/WebGL error sentinels). -/
structure BrowserEnv where
  canvasData : String
  userAgent : String
  language : String
  timezone : String
  screenWidth : Nat
  screenHeight : Nat
  colorDepth : Nat
  platform : String
  hardwareConcurrency : Nat
  deviceMemory : Option ℚ
  touchSupport : Bool
  vendor : String
  now : Nat
deriving DecidableEq, Repr

/-- The `components` object literal built by `getDeviceFingerprint`, in its
fixed field order. -/
def fpComponents (env : BrowserEnv) : Components :=
  [("canvas", .str env.canvasData),
   ("userAgent", .str env.userAgent),
   ("language", .str env.language),
   ("timezone", .str env.timezone),
   ("screen", .str (toString env.screenWidth ++ "x" ++ toString env.screenHeight ++ "x" ++
      toString env.colorDepth)),
   ("colorDepth", .num env.colorDepth),
   ("platform", .str env.platform),
   ("hardwareConcurrency", .num env.hardwareConcurrency),
   ("deviceMemory", match env.deviceMemory with | some m => .num m | none => .undef),
   ("touchSupport", .bool env.touchSupport),
   ("vendor", .str env.vendor)]

/-- JavaScript template-literal stringification of a component value. -/
def fpValueToString : FPValue → String
  | .str s => s
  | .num q => toString q
  | .bool b => if b then "true" else "false"
  | .undef => "undefined"

/-- The canonical composite: `Object.entries(components).map(([k, v]) =>
k + ":" + v).join("|")`. -/
def compositeString (comps : Components) : String :=
  String.intercalate "|" (comps.map (fun e => e.1 ++ ":" ++ fpValueToString e.2))

/-- A hexadecimal digit character (lowercase, as produced by
`toString(16)`). -/
def hexDigit (n : Nat) : Char :=
  if n < 10 then Char.ofNat (48 + n) else Char.ofNat (87 + n)

/-- Big-endian 64-nibble hex encoding of a 256-bit number (the byte-wise
`padStart(2, "0")` hex join). -/
def toHex256 (n : Nat) : String :=
  String.mk ((List.range 64).map (fun i => hexDigit (n / 16 ^ (63 - i) % 16)))

/-- Modelled from the spec: the source hashes the composite string with the
platform SHA-256 primitive (`crypto.subtle.digest`), which is external to
the source tree; the spec only requires a deterministic 256-bit one-way
digest, hex-encoded.  Modelled as a deterministic FNV-style fold over the
string's characters into a 256-bit number. -/
def digest256 (s : String) : Nat :=
  s.data.foldl (fun h c => (h * 1099511628211 + c.toNat + 1) % 2 ^ 256) 14695981039346656037

/-- The hex-encoded digest of a string (`id` computation tail of
`getDeviceFingerprint`). -/
def sha256Hex (s : String) : String :=
  toHex256 (digest256 s)

/-- Source `getDeviceFingerprint()`: builds the components from the environment,
hashes their canonical composite string into `id`, stamps `Date.now()`. -/
def getDeviceFingerprint (env : BrowserEnv) : DeviceFingerprint :=
  let components := fpComponents env
  { id := sha256Hex (compositeString components),
    components := components,
    timestamp := env.now }

/-! ## Identity store (`registerDevice` / `verifyDevice`)

The `chapterflash_device` localStorage slot is the state; the fresh capture
is passed in (the result of `getDeviceFingerprint` at call time). -/

/-- Source `registerDevice()`: returns `isNew` and the updated stored slot. -/
def registerDevice (store : Option DeviceFingerprint) (fresh : DeviceFingerprint) :
    Bool × Option DeviceFingerprint :=
  match store with
  | none => (true, some fresh)
  | some existing =>
    if existing.id != fresh.id then
      (false, some existing)
    else
      (false, some fresh)

/-- Source `verifyDevice()`: first use registers and trusts; otherwise compares
similarity of the stored and fresh components against the 0.8 threshold
(strictly greater, per `similarityScore > 0.8`). -/
def verifyDevice (store : Option DeviceFingerprint) (fresh : DeviceFingerprint) :
    Bool × Option DeviceFingerprint :=
  match store with
  | none => (true, (registerDevice none fresh).2)
  | some existing =>
    (decide (calculateSimilarity existing.components fresh.components > 4 / 5), some existing)

/-! ## License manager (`license.ts`) -/

/-- License tiers. -/
inductive LicenseTier where
  | free | student | pro | lifetime
deriving DecidableEq, Repr

/-- The `License` record.  `expiresAt = none` means lifetime; milliseconds
since the epoch elsewhere. -/
structure License where
  key : String
  email : String
  deviceId : String
  activatedAt : Nat
  expiresAt : Option Nat
  maxDevices : Nat
  currentDevices : List String
  tier : LicenseTier
  features : List String
deriving DecidableEq, Repr

/-- Split a character list at every dash (the delimiter of the license
grammar), keeping empty segments, as `String.splitOn "-"` does. -/
def splitDash : List Char → List (List Char)
  | [] => [[]]
  | c :: rest =>
    let r := splitDash rest
    if c = '-' then
      [] :: r
    else
      match r with
      | [] => [[c]]
      | seg :: segs => (c :: seg) :: segs

/-- One `[A-Z0-9]{5}` segment of the license grammar. -/
def isSegment (s : List Char) : Bool :=
  s.length == 5 && s.all (fun c => c.isUpper || c.isDigit)

/-- Source `isValidLicenseFormat`: the regex
`CFEMT-[A-Z0-9]{5}-[A-Z0-9]{5}-[A-Z0-9]{5}-[A-Z0-9]{5}` anchored at both
ends, rendered as a whole-string split on the dash. -/
def isValidLicenseFormat (key : String) : Bool :=
  match splitDash key.data with
  | [p, a, b, c, d] =>
    p == "CFEMT".data && isSegment a && isSegment b && isSegment c && isSegment d
  | _ => false

/-- Modelled from the spec: the AES primitive (`crypto-js`, an external
collaborator) keeps the license confidential at rest; for integrity
reasoning a well-formed ciphertext is identified with the payload it
decrypts to, and `corrupt` stands for any ciphertext whose decryption
throws (foreign key, truncation, garbage). -/
inductive Ciphertext where
  | payload (l : License)
  | corrupt
deriving DecidableEq, Repr

/-- Source `encryptData` on a license. -/
def encryptData (l : License) : Ciphertext := .payload l

/-- Source `decryptData`: `none` models the thrown `Failed to decrypt data`
error. -/
def decryptData : Ciphertext → Option License
  | .payload l => some l
  | .corrupt => none

/-- Modelled from the spec: `hashData` feeds `JSON.stringify` of the
payload to the SHA-256 collaborator.  The one-way digest is idealized as
collision-free, so the tag is represented by the payload it digests. -/
structure IntegrityTag where
  payload : License
deriving DecidableEq, Repr

/-- Source `hashData` on a license. -/
def hashData (l : License) : IntegrityTag := ⟨l⟩

/-- The three localStorage keys owned by the license manager:
`chapterflash_license`, `chapterflash_license_hash`,
`chapterflash_activation_date`. -/
structure LicenseStorage where
  licenseSlot : Option Ciphertext
  hashSlot : Option IntegrityTag
  activationDate : Option Nat
deriving DecidableEq, Repr

/-- Fresh storage: nothing persisted. -/
def initialStorage : LicenseStorage := ⟨none, none, none⟩

/-- Source `storeLicense`: persist the encrypted license and its integrity tag. -/
def storeLicense (l : License) (s : LicenseStorage) : LicenseStorage :=
  { s with licenseSlot := some (encryptData l), hashSlot := some (hashData l) }

/-- Source `revokeLicense`: remove all three license keys. -/
def revokeLicense (s : LicenseStorage) : LicenseStorage :=
  { s with licenseSlot := none, hashSlot := none, activationDate := none }

/-- Source `getStoredLicense`: both keys required; decrypt, recompute the tag and
compare.  A mismatch revokes and yields `none`; a decryption throw is
caught by the surrounding `try`/`catch`, which just returns `null`. -/
def getStoredLicense (s : LicenseStorage) : Option License × LicenseStorage :=
  match s.licenseSlot, s.hashSlot with
  | some enc, some storedHash =>
    match decryptData enc with
    | some license =>
      if hashData license != storedHash then
        (none, revokeLicense s)
      else
        (some license, s)
    | none => (none, s)
  | _, _ => (none, s)

/-- The result record of `validateLicense`; absent optional fields are
`none`. -/
structure LicenseValidationResult where
  valid : Bool
  license : Option License
  error : Option String
  daysRemaining : Option Nat
deriving DecidableEq, Repr

/-- The demo license constructed on local activation. -/
def demoLicense (licenseKey deviceId : String) (now : Nat) : License :=
  { key := licenseKey
    email := "user@example.com"
    deviceId := deviceId
    activatedAt := now
    expiresAt := none
    maxDevices := 3
    currentDevices := [deviceId]
    tier := .student
    features := ["offline_access", "all_chapters", "progress_tracking", "export_data"] }

/-- The guard `license.expiresAt && Date.now() > license.expiresAt`
(`expiresAt` of `0` is falsy in JavaScript). -/
def checkExpired (license : License) (now : Nat) : Bool :=
  match license.expiresAt with
  | some e => (e != 0) && decide (now > e)
  | none => false

/-- Source `daysRemaining = Math.ceil((expiresAt - now) / day)` when `expiresAt`
is truthy; only evaluated on unexpired licenses, where `now ≤ expiresAt`. -/
def daysRemainingOf (license : License) (now : Nat) : Option Nat :=
  match license.expiresAt with
  | some e => if e != 0 then some ((e - now + 86399999) / 86400000) else none
  | none => none

/-- The device-slot step of `validateLicense`: a member device passes
through; a new device is appended and re-persisted only below the limit;
`none` signals the device-limit failure (no mutation). -/
def addDeviceStep (license : License) (deviceId : String) (s : LicenseStorage) :
    Option (License × LicenseStorage) :=
  if license.currentDevices.contains deviceId then
    some (license, s)
  else if license.currentDevices.length ≥ license.maxDevices then
    none
  else
    let license := { license with currentDevices := license.currentDevices ++ [deviceId] }
    some (license, storeLicense license s)

/-- The tail of `validateLicense` once a license is in hand: expiry check,
device-slot check, days-remaining computation. -/
def validateStored (license : License) (deviceId : String) (now : Nat) (s : LicenseStorage) :
    LicenseValidationResult × LicenseStorage :=
  if checkExpired license now then
    ({ valid := false, license := none, error := some "License has expired",
       daysRemaining := some 0 }, s)
  else
    match addDeviceStep license deviceId s with
    | none =>
      ({ valid := false, license := none,
         error := some ("License is already active on " ++ toString license.maxDevices ++
           " devices. Please deactivate a device first."),
         daysRemaining := none }, s)
    | some (license, s) =>
      ({ valid := true, license := some license, error := none,
         daysRemaining := daysRemainingOf license now }, s)

/-- Source `validateLicense(licenseKey?)`: load (with tamper check), locally
activate when nothing is stored and a well-formed key is supplied, then
validate.  `deviceId` is the identity store's `getDeviceId()` value and
`now` is `Date.now()`. -/
def validateLicense (licenseKey : Option String) (deviceId : String) (now : Nat)
    (s0 : LicenseStorage) : LicenseValidationResult × LicenseStorage :=
  let loaded := getStoredLicense s0
  match loaded.1, licenseKey with
  | none, some key =>
    if key == "" then
      -- an empty key is falsy: activation is skipped and the later
      -- `if (!license)` guard reports missing license
      ({ valid := false, license := none,
         error := some "No license found. Please activate your license.",
         daysRemaining := none }, loaded.2)
    else if !isValidLicenseFormat key then
      ({ valid := false, license := none, error := some "Invalid license key format",
         daysRemaining := none }, loaded.2)
    else
      let license := demoLicense key deviceId now
      validateStored license deviceId now (storeLicense license loaded.2)
  | none, none =>
    ({ valid := false, license := none,
       error := some "No license found. Please activate your license.",
       daysRemaining := none }, loaded.2)
  | some license, _ => validateStored license deviceId now loaded.2

/-- Source `deactivateDevice()`: filter the current device out of
`currentDevices` and re-persist (even when that empties the set). -/
def deactivateDevice (deviceId : String) (s0 : LicenseStorage) : Bool × LicenseStorage :=
  let loaded := getStoredLicense s0
  match loaded.1 with
  | none => (false, loaded.2)
  | some license =>
    let license :=
      { license with currentDevices := license.currentDevices.filter (fun i => i != deviceId) }
    (true, storeLicense license loaded.2)

/-- License-storage states reachable through the license manager's public
operations, starting from fresh storage. -/
inductive Reachable : LicenseStorage → Prop where
  | init : Reachable initialStorage
  | validate (k : Option String) (d : String) (now : Nat) {s : LicenseStorage} :
      Reachable s → Reachable (validateLicense k d now s).2
  | deactivate (d : String) {s : LicenseStorage} :
      Reachable s → Reachable (deactivateDevice d s).2

/-- Every license persisted in storage `s` respects the device bound. -/
def DevicesBounded (s : LicenseStorage) : Prop :=
  ∀ l : License, s.licenseSlot = some (Ciphertext.payload l) →
    l.currentDevices.length ≤ l.maxDevices

/-! ## Rate limiter / bot detector (`RateLimiter`) -/

/-- One entry of `RateLimiter.requests`. -/
structure RequestRecord where
  timestamp : Nat
  action : String
  count : Nat
deriving DecidableEq, Repr

/-- One entry of the `chapterflash_security_logs` array (the fields the
algorithms depend on). -/
structure SecurityLogEntry where
  timestamp : Nat
  action : String
  requestCount : Nat
deriving DecidableEq, Repr

/-- The rate limiter's mutable state, together with its security-log
storage slot. -/
structure RateLimiterState where
  requests : List RequestRecord
  blocked : Bool
  blockUntil : Nat
  securityLogs : List SecurityLogEntry
deriving DecidableEq, Repr

/-- The state of the freshly constructed singleton. -/
def rlInit : RateLimiterState := ⟨[], false, 0, []⟩

/-- Source `getActionLimit`: the per-action default limit table. -/
def getActionLimit : String → Nat
  | "flashcard_view" => 50
  | "api_call" => 100
  | "export_data" => 5
  | "chapter_access" => 20
  | _ => 100

/-- Source `logSuspiciousActivity`: push the alert, then `shift` once when more
than 50 entries are retained. -/
def logSuspiciousActivity (now : Nat) (action : String) (count : Nat)
    (logs : List SecurityLogEntry) : List SecurityLogEntry :=
  let logs := logs ++ [⟨now, action, count⟩]
  if logs.length > 50 then logs.drop 1 else logs

/-- Source `canProceed(action, limit?)` at time `now`: block check and expiry,
window eviction, effective limit (`limit || getActionLimit(action)` — a
falsy `0` falls through to the default), per-action weighted count,
block-and-log on reaching the limit, else record and allow. -/
def canProceed (s : RateLimiterState) (action : String) (limit : Option Nat) (now : Nat) :
    Bool × RateLimiterState :=
  if s.blocked && decide (now < s.blockUntil) then
    (false, s)
  else
    let s := if s.blocked && decide (now ≥ s.blockUntil) then
        { s with blocked := false, requests := [] }
      else s
    let requests := s.requests.filter (fun req => now - req.timestamp < 60000)
    let maxRequests :=
      match limit with
      | some l => if l != 0 then l else getActionLimit action
      | none => getActionLimit action
    let actionRequests := requests.filter (fun req => req.action == action)
    let totalCount := (actionRequests.map (fun req => req.count)).sum
    if totalCount ≥ maxRequests then
      (false,
        { s with
          requests := requests
          blocked := true
          blockUntil := now + 300000
          securityLogs := logSuspiciousActivity now action totalCount s.securityLogs })
    else
      (true, { s with requests := requests ++ [⟨now, action, 1⟩] })

/-- The consecutive inter-arrival differences of the request list (the
indexed `map` before its `filter(Boolean)`, minus the `null` head). -/
def consecutiveDiffs : List RequestRecord → List Int
  | [] => []
  | [_] => []
  | a :: b :: rest => ((b.timestamp : Int) - (a.timestamp : Int)) :: consecutiveDiffs (b :: rest)

/-- The `intervals` list of `detectBotBehavior`: `filter(Boolean)` keeps
only the nonzero differences. -/
def intervalsOf (l : List RequestRecord) : List Int :=
  (consecutiveDiffs l).filter (fun d => d != 0)

/-- Arithmetic mean of a list of differences, as the exact rational the
floating-point code computes with. -/
def meanOf (l : List Int) : ℚ :=
  (l.map (fun i => (i : ℚ))).sum / (l.length : ℚ)

/-- Population variance of a list of differences. -/
def varianceOf (l : List Int) : ℚ :=
  (l.map (fun i => ((i : ℚ) - meanOf l) ^ 2)).sum / (l.length : ℚ)

/-- Source `detectBotBehavior()`: more than 20 requests in the last 5 seconds, or
more than 10 retained (nonzero) intervals with variance below 100. -/
def detectBotBehavior (s : RateLimiterState) (now : Nat) : Bool :=
  let recentRequests := s.requests.filter (fun req => now - req.timestamp < 5000)
  if recentRequests.length > 20 then
    true
  else
    let intervals := intervalsOf s.requests
    if intervals.length > 10 then
      decide (varianceOf intervals < 100)
    else
      false

/-- The bot heuristic as the specification words it, for comparison with
the source behavior: true iff more than 20 events fall in the last 5
seconds, or the last 10-or-more consecutive inter-event gaps have variance
below the threshold. -/
def specLooksAutomated (s : RateLimiterState) (now : Nat) : Prop :=
  (s.requests.filter (fun req => now - req.timestamp < 5000)).length > 20 ∨
  ((consecutiveDiffs s.requests).length ≥ 10 ∧ varianceOf (consecutiveDiffs s.requests) < 100)

/-! ## Concrete inputs used by the verification scenarios -/

/-- Driver: feed `canProceed` a sequence of call times for one action,
collecting the returned booleans and the final state. -/
def runCalls (s : RateLimiterState) (action : String) (limit : Option Nat) :
    List Nat → List Bool × RateLimiterState
  | [] => ([], s)
  | t :: ts =>
    let r := canProceed s action limit t
    let rest := runCalls r.2 action limit ts
    (r.1 :: rest.1, rest.2)

/-- A synthetic ten-attribute component set. -/
def exA : Components :=
  [("k1", .str "a"), ("k2", .str "b"), ("k3", .str "c"), ("k4", .str "d"), ("k5", .str "e"),
   ("k6", .str "f"), ("k7", .str "g"), ("k8", .str "h"), ("k9", .str "i"), ("k10", .str "j")]

/-- Agrees with `exA` on exactly 8 of the 10 attributes. -/
def exB : Components :=
  [("k1", .str "a"), ("k2", .str "b"), ("k3", .str "c"), ("k4", .str "d"), ("k5", .str "e"),
   ("k6", .str "f"), ("k7", .str "g"), ("k8", .str "h"), ("k9", .str "X"), ("k10", .str "Y")]

/-- Agrees with `exA` on exactly 7 of the 10 attributes. -/
def exB7 : Components :=
  [("k1", .str "a"), ("k2", .str "b"), ("k3", .str "c"), ("k4", .str "d"), ("k5", .str "e"),
   ("k6", .str "f"), ("k7", .str "g"), ("k8", .str "W"), ("k9", .str "X"), ("k10", .str "Y")]

/-- A stored fingerprint record captured at time 0. -/
def fpStored : DeviceFingerprint := ⟨"fid", exA, 0⟩

/-- A fresh capture with identical id and components at time 100. -/
def fpFresh : DeviceFingerprint := ⟨"fid", exA, 100⟩

/-- A concrete browser environment. -/
def envA : BrowserEnv :=
  ⟨"canvas-data", "ua", "en-US", "UTC", 1920, 1080, 24, "Linux", 8, some 8, false, "v", 0⟩

/-- The same environment observed later (only `Date.now()` differs). -/
def envB : BrowserEnv := { envA with now := 999 }

/-- A well-formed license key. -/
def demoKey : String := "CFEMT-AAAAA-BBBBB-CCCCC-DDDDD"

/-- The license created by activating `demoKey` on device `devA` at time 0. -/
def lOrig : License := demoLicense demoKey "devA" 0

/-- The record `lOrig` with one field mutated offline. -/
def lMut : License := { lOrig with email := "evil@example.com" }

/-- Storage holding the mutated payload next to the original tag. -/
def sTampered : LicenseStorage := ⟨some (.payload lMut), some (hashData lOrig), none⟩

/-- Storage whose license ciphertext no longer decrypts. -/
def sCorrupt : LicenseStorage := ⟨some .corrupt, some (hashData lOrig), none⟩

/-- Storage right after activating `demoKey` on `devA`. -/
def sAct : LicenseStorage := (validateLicense (some demoKey) "devA" 0 initialStorage).2

/-- The storage `sAct` after deactivating the only registered device. -/
def sDeact : LicenseStorage := (deactivateDevice "devA" sAct).2

/-- A license already holding its maximum number of devices. -/
def lFull : License := { lOrig with currentDevices := ["devA", "devB", "devC"] }

/-- Request records for the given timestamps, all of one action and
weight 1. -/
def mkReqs (ts : List Nat) : List RequestRecord := ts.map (fun t => ⟨t, "general", 1⟩)

/-- Fifteen events spaced at an identical 1000 ms interval. -/
def uniform15 : RateLimiterState := ⟨mkReqs ((List.range 15).map (· * 1000)), false, 0, []⟩

/-- Fifteen events whose gaps alternate between 900 ms and 1100 ms (variance
10000, far above the threshold). -/
def jitter15 : RateLimiterState :=
  ⟨mkReqs [0, 900, 2000, 2900, 4000, 4900, 6000, 6900, 8000, 8900, 10000, 10900, 12000,
    12900, 14000], false, 0, []⟩

/-- Eleven events spaced at an identical 1000 ms interval: exactly 10 gaps. -/
def uniform11 : RateLimiterState := ⟨mkReqs ((List.range 11).map (· * 1000)), false, 0, []⟩

/-! ## C1: verify threshold -/

/-- The 8-of-10 synthetic pair scores similarity exactly 0.8. -/
lemma simAB : calculateSimilarity exA exB = 4 / 5 := by
  have hc : (exA.map (fun e => e.1)).countP
      (fun k => lookupFP exA k == lookupFP exB k) = 8 := by decide
  have hl : (exA.map (fun e => e.1)).length = 10 := by decide
  simp only [calculateSimilarity]
  rw [hc, hl]
  norm_num

/-- The 7-of-10 synthetic pair scores similarity exactly 0.7. -/
lemma simAB7 : calculateSimilarity exA exB7 = 7 / 10 := by
  have hc : (exA.map (fun e => e.1)).countP
      (fun k => lookupFP exA k == lookupFP exB7 k) = 7 := by decide
  have hl : (exA.map (fun e => e.1)).length = 10 := by decide
  simp only [calculateSimilarity]
  rw [hc, hl]
  norm_num

/-- Identical components score similarity 1. -/
lemma simAA : calculateSimilarity exA exA = 1 := by
  have hc : (exA.map (fun e => e.1)).countP
      (fun k => lookupFP exA k == lookupFP exA k) = 10 := by decide
  have hl : (exA.map (fun e => e.1)).length = 10 := by decide
  simp only [calculateSimilarity]
  rw [hc, hl]
  norm_num

/-- C1 counterexample: a synthetic pair matching on exactly 8 of 10
attributes has similarity exactly 0.8, yet `verifyDevice` returns `false`
— the source compares with `similarityScore > 0.8`, strictly, so the
claimed "similarity ≥ 0.8 ⇒ verify returns true" fails at this input. -/
theorem c1_counterexample :
    calculateSimilarity exA exB = 4 / 5 ∧
    ((4 : ℚ) / 5 ≥ 4 / 5) ∧
    (verifyDevice (some ⟨"stored", exA, 0⟩) ⟨"fresh", exB, 1⟩).1 = false := by
  refine ⟨simAB, le_refl _, ?_⟩
  simp only [verifyDevice, simAB]
  simp

/-- C1 (amended): with a stored fingerprint, `verifyDevice` returns true
iff the similarity of the stored and fresh components is strictly greater
than 0.8; in particular both the 8-of-10 pair (similarity 0.8) and the
7-of-10 pair (similarity 0.7) make it return false. -/
theorem c1_verify_strict_threshold :
    (∀ stored fresh : DeviceFingerprint,
      (verifyDevice (some stored) fresh).1 = true ↔
        calculateSimilarity stored.components fresh.components > 4 / 5) ∧
    (verifyDevice (some ⟨"stored", exA, 0⟩) ⟨"fresh", exB, 1⟩).1 = false ∧
    (verifyDevice (some ⟨"stored", exA, 0⟩) ⟨"fresh", exB7, 1⟩).1 = false := by
  refine ⟨fun stored fresh => by simp [verifyDevice], ?_, ?_⟩
  · simp only [verifyDevice, simAB]
    simp
  · simp only [verifyDevice, simAB7]
    simp
    norm_num

/-! ## C7: fingerprint id determinism -/

/-- C7: the fingerprint `id` is the hex digest of the canonical
`key:value|...` composite of the components, hence a pure function of the
components: identical components give a byte-identical 64-character hex
id, whatever the capture time. -/
theorem c7_fingerprint_id_pure :
    (∀ env : BrowserEnv,
        (getDeviceFingerprint env).id = sha256Hex (compositeString (fpComponents env))) ∧
    (∀ e1 e2 : BrowserEnv, fpComponents e1 = fpComponents e2 →
        (getDeviceFingerprint e1).id = (getDeviceFingerprint e2).id) ∧
    (∀ env : BrowserEnv, (getDeviceFingerprint env).id.length = 64) := by
  refine ⟨fun env => rfl, fun e1 e2 h => ?_, fun env => ?_⟩
  · simp only [getDeviceFingerprint, h]
  · simp [getDeviceFingerprint, sha256Hex, toHex256, String.length]

/-- C7 witness: two captures of the same environment at different times
produce byte-identical ids. -/
theorem c7_fingerprint_id_pure_witness :
    (getDeviceFingerprint envA).id = (getDeviceFingerprint envB).id :=
  c7_fingerprint_id_pure.2.1 envA envB rfl

/-! ## C9: persistence side effects of register/verify -/

/-- C9 counterexample: a successful `verifyDevice` (identical components,
similarity 1) leaves the stored record — including its capture timestamp —
untouched, although the fresh capture carries a newer timestamp. -/
theorem c9_counterexample :
    (verifyDevice (some fpStored) fpFresh).1 = true ∧
    (verifyDevice (some fpStored) fpFresh).2 = some fpStored ∧
    fpStored.timestamp = 0 ∧ fpFresh.timestamp = 100 := by
  refine ⟨?_, rfl, rfl, rfl⟩
  simp only [verifyDevice, fpStored, fpFresh, simAA]
  simp
  norm_num

/-- C9 (amended): `registerDevice` re-persists the fresh capture (with its
new timestamp) when nothing is stored or the ids match, and leaves the old
record when the ids mismatch; `verifyDevice` persists only on first use
(registration) and never re-persists when a record is already stored, even
on success. -/
theorem c9_register_persists_verify_does_not :
    (∀ fresh, registerDevice none fresh = (true, some fresh)) ∧
    (∀ existing fresh, existing.id = fresh.id →
        registerDevice (some existing) fresh = (false, some fresh)) ∧
    (∀ existing fresh, existing.id ≠ fresh.id →
        registerDevice (some existing) fresh = (false, some existing)) ∧
    (∀ fresh, (verifyDevice none fresh).2 = some fresh) ∧
    (∀ existing fresh, (verifyDevice (some existing) fresh).2 = some existing) := by
  refine ⟨fun fresh => rfl, fun existing fresh h => ?_, fun existing fresh h => ?_,
    fun fresh => rfl, fun existing fresh => rfl⟩
  · simp [registerDevice, h]
  · simp [registerDevice, bne_iff_ne, h]

/-- C9 witness: the amended behavior at concrete records — an id-matching
re-registration persists the fresh record. -/
theorem c9_register_persists_verify_does_not_witness :
    registerDevice (some fpStored) fpFresh = (false, some fpFresh) :=
  c9_register_persists_verify_does_not.2.1 fpStored fpFresh rfl

/-! ## C2: tamper detection on validate -/

/-- C2 counterexample: with a mutated payload stored against the original
tag, `validateLicense` does detect and revoke, but the result handed to
the caller is byte-for-byte the generic "No license found" failure — the
very result of validating with nothing stored — so no `TamperedError`
(nor any tamper-specific signal) is returned. -/
theorem c2_counterexample :
    hashData lMut ≠ hashData lOrig ∧
    (validateLicense none "devA" 5 sTampered).2 = revokeLicense sTampered ∧
    (validateLicense none "devA" 5 sTampered).1 =
      (validateLicense none "devA" 5 initialStorage).1 ∧
    (validateLicense none "devA" 5 sTampered).1.error =
      some "No license found. Please activate your license." := by
  refine ⟨by decide, by decide, by decide, by decide⟩

/-- C2 (amended): mutating any field of the persisted payload without
recomputing the tag makes the next `validateLicense` detect the mismatch
on load, revoke (clear the license, tag and activation-date keys), and
return an invalid result — whose error is the generic "No license found"
message, identical to the never-activated case, rather than a distinct
tampered error. -/
theorem c2_tamper_revokes (stored actual : License) (hne : actual ≠ stored)
    (d : String) (now : Nat) (act : Option Nat) :
    getStoredLicense ⟨some (.payload actual), some (hashData stored), act⟩ =
      (none, revokeLicense ⟨some (.payload actual), some (hashData stored), act⟩) ∧
    (validateLicense none d now ⟨some (.payload actual), some (hashData stored), act⟩).1 =
      ⟨false, none, some "No license found. Please activate your license.", none⟩ ∧
    (validateLicense none d now ⟨some (.payload actual), some (hashData stored), act⟩).2 =
      ⟨none, none, none⟩ := by
  have hget : getStoredLicense ⟨some (.payload actual), some (hashData stored), act⟩ =
      (none, revokeLicense ⟨some (.payload actual), some (hashData stored), act⟩) := by
    simp [getStoredLicense, decryptData, hashData, bne_iff_ne, hne]
  refine ⟨hget, ?_, ?_⟩ <;>
    simp [validateLicense, hget, revokeLicense]

/-- C2 witness: the amended behavior at the concrete tampered storage. -/
theorem c2_tamper_revokes_witness :
    getStoredLicense ⟨some (.payload lMut), some (hashData lOrig), none⟩ =
      (none, revokeLicense ⟨some (.payload lMut), some (hashData lOrig), none⟩) ∧
    (validateLicense none "devA" 5 ⟨some (.payload lMut), some (hashData lOrig), none⟩).1 =
      ⟨false, none, some "No license found. Please activate your license.", none⟩ ∧
    (validateLicense none "devA" 5 ⟨some (.payload lMut), some (hashData lOrig), none⟩).2 =
      ⟨none, none, none⟩ :=
  c2_tamper_revokes lOrig lMut (by decide) "devA" 5 none

/-! ## C8: decryption failure handling -/

/-- C8 counterexample: when the stored ciphertext fails to decrypt,
`getStoredLicense` catches the error and returns `null` with storage left
fully in place — the license and tag keys are *not* cleared, so no
revocation happens, unlike the claimed tamper-equivalent handling. -/
theorem c8_counterexample :
    getStoredLicense sCorrupt = (none, sCorrupt) ∧
    sCorrupt.licenseSlot = some .corrupt ∧
    sCorrupt.licenseSlot ≠ none ∧
    sCorrupt.hashSlot ≠ none := by
  refine ⟨by decide, rfl, by decide, by decide⟩

/-- C8 (amended): a decryption failure is caught and reported as "no
license" for that call — the caller cannot use the stored state, but the
stored license and tag are left untouched (no revocation); only a
successful decryption whose recomputed tag mismatches the stored tag
triggers the full revocation. -/
theorem c8_decrypt_failure_leaves_storage (s : LicenseStorage) (t : IntegrityTag)
    (henc : s.licenseSlot = some .corrupt) (htag : s.hashSlot = some t) :
    getStoredLicense s = (none, s) ∧
    (∀ stored actual : License, ∀ act : Option Nat, actual ≠ stored →
      getStoredLicense ⟨some (.payload actual), some (hashData stored), act⟩ =
        (none, revokeLicense ⟨some (.payload actual), some (hashData stored), act⟩)) := by
  refine ⟨?_, fun stored actual act hne => ?_⟩
  · simp [getStoredLicense, henc, htag, decryptData]
  · simp [getStoredLicense, decryptData, hashData, bne_iff_ne, hne]

/-- C8 witness: the amended behavior at the concrete corrupt storage. -/
theorem c8_decrypt_failure_leaves_storage_witness :
    getStoredLicense sCorrupt = (none, sCorrupt) ∧
    (∀ stored actual : License, ∀ act : Option Nat, actual ≠ stored →
      getStoredLicense ⟨some (.payload actual), some (hashData stored), act⟩ =
        (none, revokeLicense ⟨some (.payload actual), some (hashData stored), act⟩)) :=
  c8_decrypt_failure_leaves_storage sCorrupt (hashData lOrig) rfl rfl

/-! ## C3: device-slot accounting invariant -/

/-- Storing a license that respects the bound yields bounded storage. -/
lemma devicesBounded_storeLicense (l : License) (s : LicenseStorage)
    (hl : l.currentDevices.length ≤ l.maxDevices) : DevicesBounded (storeLicense l s) := by
  intro l' h
  simp only [storeLicense, encryptData] at h
  obtain rfl : l = l' := by simpa using h
  exact hl

/-- Loading never breaks boundedness of the storage (revocation empties
it). -/
lemma devicesBounded_getStored_snd (s : LicenseStorage) (h : DevicesBounded s) :
    DevicesBounded (getStoredLicense s).2 := by
  unfold getStoredLicense
  split
  · split
    · split
      · intro l' hl'
        simp [revokeLicense] at hl'
      · exact h
    · exact h
  · exact h

/-- A license returned by `getStoredLicense` was the persisted one, so it
inherits the storage bound. -/
lemma devicesBounded_getStored_fst (s : LicenseStorage) (h : DevicesBounded s) :
    ∀ l, (getStoredLicense s).1 = some l → l.currentDevices.length ≤ l.maxDevices := by
  intro l hl
  unfold getStoredLicense at hl
  split at hl
  case _ enc storedHash henc htag =>
    cases enc with
    | payload l0 =>
      simp only [decryptData] at hl
      split at hl
      · simp at hl
      · obtain rfl : l0 = l := by simpa using hl
        exact h l0 henc
    | corrupt => simp [decryptData] at hl
  case _ => simp at hl

/-- The device-slot step keeps storage bounded: a new device is persisted
only when the count was strictly below the limit. -/
lemma devicesBounded_addDeviceStep (l : License) (d : String) (s : LicenseStorage)
    (h : DevicesBounded s) :
    ∀ l' s', addDeviceStep l d s = some (l', s') → DevicesBounded s' := by
  intro l' s' hstep
  unfold addDeviceStep at hstep
  split at hstep
  · cases hstep
    exact h
  · split at hstep
    · simp at hstep
    · cases hstep
      apply devicesBounded_storeLicense
      simp only [List.length_append, List.length_cons, List.length_nil]
      omega

/-- Lemma: `validateStored` keeps storage bounded. -/
lemma devicesBounded_validateStored (l : License) (d : String) (now : Nat)
    (s : LicenseStorage) (h : DevicesBounded s) :
    DevicesBounded (validateStored l d now s).2 := by
  unfold validateStored
  split
  · exact h
  · split
    · exact h
    case _ l' s' heq => exact devicesBounded_addDeviceStep l d s h l' s' heq

/-- Lemma: `validateLicense` keeps storage bounded (activation starts at one
device out of three). -/
lemma devicesBounded_validateLicense (k : Option String) (d : String) (now : Nat)
    (s : LicenseStorage) (h : DevicesBounded s) :
    DevicesBounded (validateLicense k d now s).2 := by
  have hsnd := devicesBounded_getStored_snd s h
  simp only [validateLicense]
  split
  · split
    · exact hsnd
    · split
      · exact hsnd
      · exact devicesBounded_validateStored _ _ _ _
          (devicesBounded_storeLicense _ _ (by simp [demoLicense]))
  · exact hsnd
  · exact devicesBounded_validateStored _ _ _ _ hsnd

/-- Lemma: `deactivateDevice` keeps storage bounded (it only removes devices). -/
lemma devicesBounded_deactivateDevice (d : String) (s : LicenseStorage)
    (h : DevicesBounded s) : DevicesBounded (deactivateDevice d s).2 := by
  have hsnd := devicesBounded_getStored_snd s h
  simp only [deactivateDevice]
  split
  · exact hsnd
  case _ license heq =>
    apply devicesBounded_storeLicense
    calc (license.currentDevices.filter (fun i => i != d)).length
        ≤ license.currentDevices.length := List.length_filter_le _ _
      _ ≤ license.maxDevices := devicesBounded_getStored_fst s h license heq

/-- C3: every storage state reachable through the license manager keeps
`currentDevices.length ≤ maxDevices`; activation creates the singleton
device set; from an unexpired license, a foreign device at the limit gets
the device-limit error with storage untouched, and below the limit the
device is appended and re-persisted. -/
theorem c3_device_accounting :
    (∀ s, Reachable s → DevicesBounded s) ∧
    (∀ k d now, (demoLicense k d now).currentDevices = [d]) ∧
    (∀ (l : License) d now s, checkExpired l now = false →
      l.currentDevices.contains d = false →
      l.currentDevices.length ≥ l.maxDevices →
      validateStored l d now s =
        ({ valid := false, license := none,
           error := some ("License is already active on " ++ toString l.maxDevices ++
             " devices. Please deactivate a device first."),
           daysRemaining := none }, s)) ∧
    (∀ (l : License) d now s, checkExpired l now = false →
      l.currentDevices.contains d = false →
      l.currentDevices.length < l.maxDevices →
      (validateStored l d now s).2 =
        storeLicense { l with currentDevices := l.currentDevices ++ [d] } s) := by
  refine ⟨?_, fun k d now => rfl, ?_, ?_⟩
  · intro s h
    induction h with
    | init => intro l hl; simp [initialStorage] at hl
    | validate k d now _ ih => exact devicesBounded_validateLicense k d now _ ih
    | deactivate d _ ih => exact devicesBounded_deactivateDevice d _ ih
  · intro l d now s he hc hge
    have hmem : d ∉ l.currentDevices := by simpa using hc
    simp [validateStored, addDeviceStep, he, hmem, hge]
  · intro l d now s he hc hlt
    have hmem : d ∉ l.currentDevices := by simpa using hc
    simp [validateStored, addDeviceStep, he, hmem, Nat.not_le.mpr hlt]

/-- C3 witness: the invariant at the concrete storage reached by
activating a license, and the device-limit refusal at a full license. -/
theorem c3_device_accounting_witness :
    DevicesBounded sAct ∧
    (validateStored lFull "devD" 5 initialStorage).2 = initialStorage := by
  constructor
  · exact c3_device_accounting.1 sAct
      (Reachable.validate (some demoKey) "devA" 0 Reachable.init)
  · rw [c3_device_accounting.2.2.1 lFull "devD" 5 initialStorage (by decide) (by decide)
      (by decide)]

/-! ## C4: currentDevices after deactivation -/

/-- C4 counterexample: activate (one device registered), then deactivate
that device — the persisted license now has an empty `currentDevices` but
is still stored, refuting "never empty once activated". -/
theorem c4_counterexample :
    sAct.licenseSlot = some (.payload (demoLicense demoKey "devA" 0)) ∧
    sDeact.licenseSlot =
      some (.payload { demoLicense demoKey "devA" 0 with currentDevices := [] }) := by
  refine ⟨by decide, by decide⟩

/-- C4 (amended): activation initializes `currentDevices` to the single
activating device, but `deactivateDevice` filters the current device out
and re-persists whatever remains — possibly the empty set — while keeping
the license stored (it is not deleted). -/
theorem c4_deactivate_can_empty (d : String) (s : LicenseStorage) (l : License)
    (h : (getStoredLicense s).1 = some l) :
    (deactivateDevice d s).1 = true ∧
    (deactivateDevice d s).2.licenseSlot =
      some (.payload { l with currentDevices := l.currentDevices.filter (fun i => i != d) }) ∧
    (∀ k dev now, (demoLicense k dev now).currentDevices = [dev]) := by
  refine ⟨?_, ?_, fun k dev now => rfl⟩ <;>
    simp [deactivateDevice, h, storeLicense, encryptData]

/-- C4 witness: deactivating the sole device of the freshly activated
storage re-persists the license with no devices. -/
theorem c4_deactivate_can_empty_witness :
    (deactivateDevice "devA" sAct).1 = true ∧
    (deactivateDevice "devA" sAct).2.licenseSlot =
      some (.payload { demoLicense demoKey "devA" 0 with
        currentDevices := (demoLicense demoKey "devA" 0).currentDevices.filter
          (fun i => i != "devA") }) ∧
    (∀ k dev now, (demoLicense k dev now).currentDevices = [dev]) :=
  c4_deactivate_can_empty "devA" sAct (demoLicense demoKey "devA" 0) (by decide)

/-! ## C5: rate-limit scenario with explicit limit 5 -/

/-- C5: from the fresh limiter, five `canProceed("x", 5)` calls inside one
60-second window all pass; the sixth is denied and blocks until
`now + 300000`; the first call at or after `blockUntil` is allowed again
with exactly one retained event. -/
theorem c5_rate_limit_trace (t1 t2 t3 t4 t5 t6 t7 : Nat)
    (h12 : t1 ≤ t2) (h23 : t2 ≤ t3) (h34 : t3 ≤ t4) (h45 : t4 ≤ t5) (h56 : t5 ≤ t6)
    (hwin : t6 - t1 < 60000) (h7 : t6 + 300000 ≤ t7) :
    (runCalls rlInit "x" (some 5) [t1, t2, t3, t4, t5, t6]).1 =
      [true, true, true, true, true, false] ∧
    (runCalls rlInit "x" (some 5) [t1, t2, t3, t4, t5, t6]).2.blocked = true ∧
    (runCalls rlInit "x" (some 5) [t1, t2, t3, t4, t5, t6]).2.blockUntil = t6 + 300000 ∧
    (canProceed (runCalls rlInit "x" (some 5) [t1, t2, t3, t4, t5, t6]).2
      "x" (some 5) t7).1 = true ∧
    (canProceed (runCalls rlInit "x" (some 5) [t1, t2, t3, t4, t5, t6]).2
      "x" (some 5) t7).2.blocked = false ∧
    (canProceed (runCalls rlInit "x" (some 5) [t1, t2, t3, t4, t5, t6]).2
      "x" (some 5) t7).2.requests.length = 1 := by
  have w21 : t2 - t1 < 60000 := by omega
  have w31 : t3 - t1 < 60000 := by omega
  have w32 : t3 - t2 < 60000 := by omega
  have w41 : t4 - t1 < 60000 := by omega
  have w42 : t4 - t2 < 60000 := by omega
  have w43 : t4 - t3 < 60000 := by omega
  have w51 : t5 - t1 < 60000 := by omega
  have w52 : t5 - t2 < 60000 := by omega
  have w53 : t5 - t3 < 60000 := by omega
  have w54 : t5 - t4 < 60000 := by omega
  have w61 : t6 - t1 < 60000 := by omega
  have w62 : t6 - t2 < 60000 := by omega
  have w63 : t6 - t3 < 60000 := by omega
  have w64 : t6 - t4 < 60000 := by omega
  have w65 : t6 - t5 < 60000 := by omega
  have s1 : canProceed rlInit "x" (some 5) t1 =
      (true, ⟨[⟨t1, "x", 1⟩], false, 0, []⟩) := by
    simp [canProceed, rlInit]
  have s2 : canProceed ⟨[⟨t1, "x", 1⟩], false, 0, []⟩ "x" (some 5) t2 =
      (true, ⟨[⟨t1, "x", 1⟩, ⟨t2, "x", 1⟩], false, 0, []⟩) := by
    simp [canProceed, w21]
  have s3 : canProceed ⟨[⟨t1, "x", 1⟩, ⟨t2, "x", 1⟩], false, 0, []⟩ "x" (some 5) t3 =
      (true, ⟨[⟨t1, "x", 1⟩, ⟨t2, "x", 1⟩, ⟨t3, "x", 1⟩], false, 0, []⟩) := by
    simp [canProceed, w31, w32]
  have s4 : canProceed ⟨[⟨t1, "x", 1⟩, ⟨t2, "x", 1⟩, ⟨t3, "x", 1⟩], false, 0, []⟩
      "x" (some 5) t4 =
      (true, ⟨[⟨t1, "x", 1⟩, ⟨t2, "x", 1⟩, ⟨t3, "x", 1⟩, ⟨t4, "x", 1⟩], false, 0, []⟩) := by
    simp [canProceed, w41, w42, w43]
  have s5 : canProceed ⟨[⟨t1, "x", 1⟩, ⟨t2, "x", 1⟩, ⟨t3, "x", 1⟩, ⟨t4, "x", 1⟩],
      false, 0, []⟩ "x" (some 5) t5 =
      (true, ⟨[⟨t1, "x", 1⟩, ⟨t2, "x", 1⟩, ⟨t3, "x", 1⟩, ⟨t4, "x", 1⟩, ⟨t5, "x", 1⟩],
        false, 0, []⟩) := by
    simp [canProceed, w51, w52, w53, w54]
  have s6 : canProceed ⟨[⟨t1, "x", 1⟩, ⟨t2, "x", 1⟩, ⟨t3, "x", 1⟩, ⟨t4, "x", 1⟩,
      ⟨t5, "x", 1⟩], false, 0, []⟩ "x" (some 5) t6 =
      (false, ⟨[⟨t1, "x", 1⟩, ⟨t2, "x", 1⟩, ⟨t3, "x", 1⟩, ⟨t4, "x", 1⟩, ⟨t5, "x", 1⟩],
        true, t6 + 300000, [⟨t6, "x", 5⟩]⟩) := by
    simp [canProceed, w61, w62, w63, w64, w65, logSuspiciousActivity]
  have hb1 : ¬ (t7 < t6 + 300000) := by omega
  have s7 : canProceed ⟨[⟨t1, "x", 1⟩, ⟨t2, "x", 1⟩, ⟨t3, "x", 1⟩, ⟨t4, "x", 1⟩,
      ⟨t5, "x", 1⟩], true, t6 + 300000, [⟨t6, "x", 5⟩]⟩ "x" (some 5) t7 =
      (true, ⟨[⟨t7, "x", 1⟩], false, t6 + 300000, [⟨t6, "x", 5⟩]⟩) := by
    simp [canProceed, hb1, h7]
  have run6 : runCalls rlInit "x" (some 5) [t1, t2, t3, t4, t5, t6] =
      ([true, true, true, true, true, false],
        ⟨[⟨t1, "x", 1⟩, ⟨t2, "x", 1⟩, ⟨t3, "x", 1⟩, ⟨t4, "x", 1⟩, ⟨t5, "x", 1⟩],
          true, t6 + 300000, [⟨t6, "x", 5⟩]⟩) := by
    simp only [runCalls, s1, s2, s3, s4, s5, s6]
  rw [run6, s7]
  exact ⟨rfl, rfl, rfl, rfl, rfl, rfl⟩

/-- C5 witness: the scenario at concrete call times 100..600 and a
post-block call at 300600. -/
theorem c5_rate_limit_trace_witness :
    (runCalls rlInit "x" (some 5) [100, 200, 300, 400, 500, 600]).1 =
      [true, true, true, true, true, false] ∧
    (runCalls rlInit "x" (some 5) [100, 200, 300, 400, 500, 600]).2.blocked = true ∧
    (runCalls rlInit "x" (some 5) [100, 200, 300, 400, 500, 600]).2.blockUntil =
      600 + 300000 ∧
    (canProceed (runCalls rlInit "x" (some 5) [100, 200, 300, 400, 500, 600]).2
      "x" (some 5) 300600).1 = true ∧
    (canProceed (runCalls rlInit "x" (some 5) [100, 200, 300, 400, 500, 600]).2
      "x" (some 5) 300600).2.blocked = false ∧
    (canProceed (runCalls rlInit "x" (some 5) [100, 200, 300, 400, 500, 600]).2
      "x" (some 5) 300600).2.requests.length = 1 :=
  c5_rate_limit_trace 100 200 300 400 500 600 300600 (by omega) (by omega) (by omega)
    (by omega) (by omega) (by omega) (by omega)

/-! ## C6: bot-behavior heuristic -/

/-- The retained gaps of the 15 uniformly spaced events. -/
lemma intervals_uniform15 : intervalsOf uniform15.requests =
    [1000, 1000, 1000, 1000, 1000, 1000, 1000, 1000, 1000, 1000, 1000, 1000, 1000,
      1000] := by decide

/-- Uniform spacing has variance 0. -/
lemma variance_uniform15 : varianceOf (intervalsOf uniform15.requests) = 0 := by
  rw [intervals_uniform15]
  norm_num [varianceOf, meanOf]

/-- The retained gaps of the jittered events. -/
lemma intervals_jitter15 : intervalsOf jitter15.requests =
    [900, 1100, 900, 1100, 900, 1100, 900, 1100, 900, 1100, 900, 1100, 900, 1100] := by
  decide

/-- The alternating ±100 jitter has variance 10000. -/
lemma variance_jitter15 : varianceOf (intervalsOf jitter15.requests) = 10000 := by
  rw [intervals_jitter15]
  norm_num [varianceOf, meanOf]

/-- C6 counterexample: 11 events at an identical 1000 ms spacing give
exactly 10 inter-event gaps of variance 0 — the spec's "10+ gaps" clause
is satisfied — yet `detectBotBehavior` returns false, because the source
requires `intervals.length > 10` (at least 11 gaps). -/
theorem c6_counterexample :
    specLooksAutomated uniform11 10000 ∧ detectBotBehavior uniform11 10000 = false := by
  constructor
  · right
    constructor
    · decide
    · have hd : consecutiveDiffs uniform11.requests =
          [1000, 1000, 1000, 1000, 1000, 1000, 1000, 1000, 1000, 1000] := by decide
      rw [hd]
      norm_num [varianceOf, meanOf]
  · decide

/-- C6 (amended): `detectBotBehavior` is true iff more than 20 events fall
in the last 5 seconds, or there are *more than 10* retained (nonzero)
inter-event gaps whose variance is below 100; the 15-event
identical-spacing sequence triggers it, the 15-event jittered sequence
does not. -/
theorem c6_bot_detection :
    (∀ s now, detectBotBehavior s now = true ↔
      ((s.requests.filter (fun req => now - req.timestamp < 5000)).length > 20 ∨
       ((intervalsOf s.requests).length > 10 ∧ varianceOf (intervalsOf s.requests) < 100))) ∧
    detectBotBehavior uniform15 14000 = true ∧
    detectBotBehavior jitter15 14000 = false := by
  refine ⟨fun s now => ?_, ?_, ?_⟩
  · simp only [detectBotBehavior]
    split_ifs with h1 h2
    · simp [h1]
    · simp [h1, h2]
    · simp [h1, h2]
  · simp only [detectBotBehavior]
    have h1 : (uniform15.requests.filter (fun req => 14000 - req.timestamp < 5000)).length
        = 5 := by decide
    have h2 : (intervalsOf uniform15.requests).length = 14 := by decide
    rw [h1, h2, variance_uniform15]
    norm_num
  · simp only [detectBotBehavior]
    have h1 : (jitter15.requests.filter (fun req => 14000 - req.timestamp < 5000)).length
        = 5 := by decide
    have h2 : (intervalsOf jitter15.requests).length = 14 := by decide
    rw [h1, h2, variance_jitter15]
    norm_num

/-! ## C10: a zero limit override falls back to the defaults -/

/-- C10: `limit || getActionLimit(action)` treats an explicit limit of 0
as absent, so a zero override never denies everything — the per-action
defaults (50/100/5/20, otherwise 100) apply, and from a fresh limiter a
zero-limit call is allowed. -/
theorem c10_zero_limit_uses_default :
    (∀ s action now, canProceed s action (some 0) now = canProceed s action none now) ∧
    getActionLimit "flashcard_view" = 50 ∧
    getActionLimit "api_call" = 100 ∧
    getActionLimit "export_data" = 5 ∧
    getActionLimit "chapter_access" = 20 ∧
    (∀ a, a ≠ "flashcard_view" → a ≠ "api_call" → a ≠ "export_data" →
      a ≠ "chapter_access" → getActionLimit a = 100) ∧
    (canProceed rlInit "export_data" (some 0) 0).1 = true := by
  refine ⟨fun s action now => ?_, rfl, rfl, rfl, rfl, fun a h1 h2 h3 h4 => ?_, by decide⟩
  · simp [canProceed]
  · unfold getActionLimit
    split
    · simp_all
    · simp_all
    · simp_all
    · simp_all
    · rfl

/-- C10 witness: the fallback limit at an uncovered action name. -/
theorem c10_zero_limit_uses_default_witness : getActionLimit "general" = 100 :=
  c10_zero_limit_uses_default.2.2.2.2.2.1 "general" (by decide) (by decide) (by decide)
    (by decide)

end FlashLearnEMS
